import Mathlib

set_option autoImplicit false

/-!
Verification development for the agent workflow orchestration core of the
Airtable-WhatsApp agent: the session/state manager
(`agent/state_manager.py`), the tool registry (`agent/tool_registry.py`),
the workflow graph nodes and routing (`agent/graph_builder.py`), and the
workflow manager (`agent/workflow_manager.py`).

Conventions of the embedding:
* Python dicts become association lists (`alistSet` mirrors dict assignment:
  replace-in-place or append; `alistGet` mirrors `dict.get`).
* `datetime.utcnow()` becomes an explicit `now : Nat` argument threaded into
  every operation that reads the clock.
* The LLM collaborator is a black box: each graph node that calls it takes
  the call outcome (`Except` of a thrown exception message, or the parsed
  reply) as a parameter.
* The graph nodes mutate the session record held by the state manager
  through methods keyed by `state["session_id"]`; in the source the stored
  dict shares its mutable containers (lists, dicts) with the graph state, so
  those calls are visible to the routing functions.  We model each node as a
  function on the session state itself, with the per-state bodies of the
  state-manager methods factored out (`addPendingActionState`, ...), exactly
  as the aliasing makes them behave.

The repository snapshot declares `AgentState`, `AgentAction`, `AgentDecision`
and `ToolExecutionResult` in `models/agent.py` with shapes unrelated to the
ones the `agent/` package actually constructs and reads (the file has no
lifecycle enum and no `ToolExecutionResult` at all; `test_imports.py` lists
`models.agent.ToolExecutionResult` among "imports that have caused issues").
Those four types are therefore modelled from the spec and from their call
sites, and carry `Modelled from the spec:` doc comments; all the logic the
claims are about (state-manager methods, tool dispatch, node bodies, routing
functions, edge maps, workflow-manager methods) is present in the source and
embedded from it.
-/

namespace AWA

/-! ### Association-list primitives (Python dict semantics) -/

/-- Python dict assignment `d[k] = v`: replace the first binding of `k`
in place, or append a new binding at the end. -/
def alistSet {κ α : Type} [BEq κ] : List (κ × α) → κ → α → List (κ × α)
  | [], k, v => [(k, v)]
  | kv :: rest, k, v =>
      if kv.1 == k then (k, v) :: rest else kv :: alistSet rest k v

/-- Python `d.get(k)`. -/
def alistGet {κ α : Type} [BEq κ] (l : List (κ × α)) (k : κ) : Option α :=
  (l.find? (fun kv => kv.1 == k)).map (·.2)

/-- Python `k in d`. -/
def alistContains {κ α : Type} [BEq κ] (l : List (κ × α)) (k : κ) : Bool :=
  (alistGet l k).isSome

/-- Python `del d[k]`. -/
def alistDel {κ α : Type} [BEq κ] (l : List (κ × α)) (k : κ) : List (κ × α) :=
  l.filter (fun kv => !(kv.1 == k))

/-- Python `d.update(other)`: fold the other dict into `d` binding by
binding. -/
def alistUpdate {κ α : Type} [BEq κ] (l other : List (κ × α)) : List (κ × α) :=
  other.foldl (fun acc kv => alistSet acc kv.1 kv.2) l

/-! ### Data model -/

/-- Modelled from the spec: the `lifecycle_state` enum of §3,
`{Idle, Authenticating, Processing, ExecutingTask, WaitingForInput, Error}`.
The `agent/` package reads these members off `models.agent.AgentState`,
but the `models/agent.py` in this snapshot defines no such enum. -/
inductive AgentState where
  | idle
  | authenticating
  | processing
  | executingTask
  | waitingForInput
  | error
deriving DecidableEq, Repr

/-- String value of a lifecycle state (enum `.value`, used by
`get_session_summary`). -/
def AgentState.value : AgentState → String
  | .idle => "idle"
  | .authenticating => "authenticating"
  | .processing => "processing"
  | .executingTask => "executing_task"
  | .waitingForInput => "waiting_for_input"
  | .error => "error"

/-- `TaskStatus` enum from `models/agent.py`. -/
inductive TaskStatus where
  | pending
  | inProgress
  | completed
  | failed
  | cancelled
  | waitingApproval
deriving DecidableEq, Repr

/-- String value of a task status (enum `.value`). -/
def TaskStatus.value : TaskStatus → String
  | .pending => "pending"
  | .inProgress => "in_progress"
  | .completed => "completed"
  | .failed => "failed"
  | .cancelled => "cancelled"
  | .waitingApproval => "waiting_approval"

/-- Parsed error-recovery reply, as consumed by `_handle_error_node`:
the node reads `should_retry` and `error_message` with `dict.get`
defaults, and stashes the whole dict under `metadata["recovery_strategy"]`.
`none` models an absent key. -/
structure RecoveryDict where
  should_retry : Option Bool
  error_message : Option String
  suggested_action : Option String
deriving DecidableEq, Repr

/-- Values stored in the open `metadata` / `task_context` bags.  Only the
shapes the embedded code actually stores are represented. -/
inductive MetaVal where
  | null
  | str (s : String)
  | boolV (b : Bool)
  | perms (ps : List String)
  | recovery (r : RecoveryDict)
  | dict (entries : List (String × String))
deriving DecidableEq, Repr

/-- An open key/value bag (`Dict[str, Any]` in the source). -/
abbrev Metadata := List (String × MetaVal)

/-- Tool-call parameters (`Dict[str, Any]`); values are kept opaque as
strings. -/
abbrev Params := List (String × String)

/-- Modelled from the spec: `Action = {action_type ∈ {tool_call,
send_message, wait_for_input}, tool_name?, parameters, reasoning}` (§3).
`graph_builder.py` constructs `AgentAction(action_type=..., tool_name=...,
parameters=..., reasoning=...)`; the Pydantic model of that name in
`models/agent.py` has a different shape.  `action_type` stays a string
because the source compares it against string literals. -/
structure AgentAction where
  action_type : String
  tool_name : Option String := none
  parameters : Params := []
  reasoning : String := ""
deriving DecidableEq, Repr

/-- Modelled from the spec: `Decision = {reasoning, confidence, ordered list
of Actions, metadata}` (§3), constructed in `_parse_decision_response` as
`AgentDecision(decision_type=..., confidence=0.8, reasoning=..., actions=...,
metadata={})`. -/
structure AgentDecision where
  decision_type : String
  confidence : Rat
  reasoning : String
  actions : List AgentAction
  metadata : Metadata
deriving DecidableEq, Repr

/-- One entry of `conversation_history` as built by
`add_message_to_history`. -/
structure HistoryEntry where
  timestamp : Nat
  sender : String
  message : String
  type : String
  metadata : Metadata
deriving DecidableEq, Repr

/-- One entry of the `tool_results` map as built by `record_tool_result`:
`{"result": ..., "success": ..., "timestamp": ...}`.  The map is keyed by
the tool name the caller passed, which can be Python `None`. -/
structure ToolResultEntry where
  result : Option String
  success : Bool
  timestamp : Nat
deriving DecidableEq, Repr

/-- The `AgentGraphState` TypedDict of `state_manager.py`. -/
structure AgentGraphState where
  current_state : AgentState
  session_id : String
  user_phone : String
  conversation_history : List HistoryEntry
  current_message : Option String
  message_type : Option String
  current_task : Option String
  task_status : TaskStatus
  task_context : Metadata
  last_decision : Option AgentDecision
  pending_actions : List AgentAction
  available_tools : List String
  tool_results : List (Option String × ToolResultEntry)
  error_count : Nat
  last_error : Option String
  created_at : Nat
  updated_at : Nat
  metadata : Metadata
deriving DecidableEq, Repr

/-! ### Conversation state store (`agent/state_manager.py`)

`StateManager.active_states` is the dict from session id to session state;
every method first looks the session up and returns `False`/`None` on a
miss.  The per-state bodies are factored into `...State` helpers so the
graph nodes (which act on the aliased session record) can reuse them. -/

/-- The `active_states` dict of `StateManager`. -/
abbrev StateManager := List (String × AgentGraphState)

/-- Body of `add_message_to_history` on one session state. -/
def addMessageState (st : AgentGraphState) (message sender message_type : String)
    (metadata : Option Metadata) (now : Nat) : AgentGraphState :=
  { st with
    conversation_history := st.conversation_history ++
      [{ timestamp := now, sender := sender, message := message,
         type := message_type, metadata := metadata.getD [] }],
    updated_at := now }

/-- Body of `add_pending_action` on one session state. -/
def addPendingActionState (st : AgentGraphState) (action : AgentAction) (now : Nat) :
    AgentGraphState :=
  { st with pending_actions := st.pending_actions ++ [action], updated_at := now }

/-- Body of `record_decision` on one session state. -/
def recordDecisionState (st : AgentGraphState) (decision : AgentDecision) (now : Nat) :
    AgentGraphState :=
  { st with last_decision := some decision, updated_at := now }

/-- Body of `record_tool_result` on one session state. -/
def recordToolResultState (st : AgentGraphState) (tool_name : Option String)
    (result : Option String) (success : Bool) (now : Nat) : AgentGraphState :=
  { st with
    tool_results := alistSet st.tool_results tool_name
      { result := result, success := success, timestamp := now },
    updated_at := now }

/-- Body of `record_error` on one session state: increments `error_count`,
sets `last_error`, and stashes a truthy `error_context` in the metadata. -/
def recordErrorState (st : AgentGraphState) (error_message : String)
    (error_context : Option (List (String × String))) (now : Nat) : AgentGraphState :=
  let st1 := { st with
    error_count := st.error_count + 1,
    last_error := some error_message,
    updated_at := now }
  match error_context with
  | some ctx =>
      if ctx.isEmpty then st1
      else { st1 with metadata := alistSet st1.metadata "last_error_context" (.dict ctx) }
  | none => st1

/-- Body of `clear_errors` on one session state. -/
def clearErrorsState (st : AgentGraphState) (now : Nat) : AgentGraphState :=
  let st1 := { st with error_count := 0, last_error := none, updated_at := now }
  if alistContains st1.metadata "last_error_context" then
    { st1 with metadata := alistDel st1.metadata "last_error_context" }
  else st1

/-- A field-level update passed to `update_state`; one constructor per key
of the `AgentGraphState` TypedDict, plus `unknownKey` for any other key
(which the source logs and ignores). -/
inductive StateUpdate where
  | current_state (v : AgentState)
  | session_id (v : String)
  | user_phone (v : String)
  | conversation_history (v : List HistoryEntry)
  | current_message (v : Option String)
  | message_type (v : Option String)
  | current_task (v : Option String)
  | task_status (v : TaskStatus)
  | task_context (v : Metadata)
  | last_decision (v : Option AgentDecision)
  | pending_actions (v : List AgentAction)
  | available_tools (v : List String)
  | tool_results (v : List (Option String × ToolResultEntry))
  | error_count (v : Nat)
  | last_error (v : Option String)
  | created_at (v : Nat)
  | updated_at (v : Nat)
  | metadata (v : Metadata)
  | unknownKey (key : String)
deriving DecidableEq, Repr

/-- One iteration of the `update_state` loop: `state[key] = value` for a
known key, ignore an unknown one. -/
def applyUpdate (st : AgentGraphState) : StateUpdate → AgentGraphState
  | .current_state v => { st with current_state := v }
  | .session_id v => { st with session_id := v }
  | .user_phone v => { st with user_phone := v }
  | .conversation_history v => { st with conversation_history := v }
  | .current_message v => { st with current_message := v }
  | .message_type v => { st with message_type := v }
  | .current_task v => { st with current_task := v }
  | .task_status v => { st with task_status := v }
  | .task_context v => { st with task_context := v }
  | .last_decision v => { st with last_decision := v }
  | .pending_actions v => { st with pending_actions := v }
  | .available_tools v => { st with available_tools := v }
  | .tool_results v => { st with tool_results := v }
  | .error_count v => { st with error_count := v }
  | .last_error v => { st with last_error := v }
  | .created_at v => { st with created_at := v }
  | .updated_at v => { st with updated_at := v }
  | .metadata v => { st with metadata := v }
  | .unknownKey _ => st

/-- The allowed-transition table of `_is_valid_transition`
(`state_manager.py`, lines 274-310). -/
def validTransitions : AgentState → List AgentState
  | .idle => [.processing, .authenticating, .error]
  | .authenticating => [.processing, .idle, .error]
  | .processing => [.executingTask, .waitingForInput, .idle, .error]
  | .executingTask => [.processing, .waitingForInput, .idle, .error]
  | .waitingForInput => [.processing, .idle, .error]
  | .error => [.idle, .processing]

/-- `_is_valid_transition`: membership of the target in the table row of
the source state. -/
def isValidTransition (from_state to_state : AgentState) : Bool :=
  (validTransitions from_state).contains to_state

namespace StateManager

/-- `create_initial_state`: builds the fresh session record and stores it
under `session_id` (returning both, as the method both returns the state
and registers it in `active_states`). -/
def create_initial_state (sm : StateManager) (session_id user_phone : String)
    (initial_message : Option String) (context : Option Metadata) (now : Nat) :
    AgentGraphState × StateManager :=
  let st : AgentGraphState :=
    { current_state := .idle
      session_id := session_id
      user_phone := user_phone
      conversation_history := []
      current_message := initial_message
      message_type := if initial_message.isSome then some "text" else none
      current_task := none
      task_status := .pending
      task_context := []
      last_decision := none
      pending_actions := []
      available_tools := []
      tool_results := []
      error_count := 0
      last_error := none
      created_at := now
      updated_at := now
      metadata := context.getD [] }
  (st, alistSet sm session_id st)

/-- `get_state`. -/
def get_state (sm : StateManager) (session_id : String) : Option AgentGraphState :=
  alistGet sm session_id

/-- `update_state`: look the session up (`None` on a miss), apply each
field-level overwrite in order, ignoring unknown keys, then bump
`updated_at`.  No transition validation is performed here. -/
def update_state (sm : StateManager) (session_id : String)
    (updates : List StateUpdate) (now : Nat) : Option AgentGraphState × StateManager :=
  match get_state sm session_id with
  | none => (none, sm)
  | some st =>
      let st1 := updates.foldl applyUpdate st
      let st2 := { st1 with updated_at := now }
      (some st2, alistSet sm session_id st2)

/-- The mutation `transition_state` performs on the session once the pair
has passed the table check: set the new lifecycle state, bump
`updated_at`, merge a truthy `context` into the metadata. -/
def transitionApply (st : AgentGraphState) (new_state : AgentState)
    (context : Option Metadata) (now : Nat) : AgentGraphState :=
  let st1 := { st with current_state := new_state, updated_at := now }
  match context with
  | some ctx =>
      if ctx.isEmpty then st1
      else { st1 with metadata := alistUpdate st1.metadata ctx }
  | none => st1

/-- `transition_state`: `False` on an unknown session or a pair missing
from the table (store untouched); otherwise apply the transition and
return `True`.  The source never raises: every outcome is a boolean. -/
def transition_state (sm : StateManager) (session_id : String) (new_state : AgentState)
    (context : Option Metadata) (now : Nat) : Bool × StateManager :=
  match get_state sm session_id with
  | none => (false, sm)
  | some st =>
      if !(isValidTransition st.current_state new_state) then (false, sm)
      else (true, alistSet sm session_id (StateManager.transitionApply st new_state context now))

/-- `add_message_to_history`. -/
def add_message_to_history (sm : StateManager) (session_id message sender : String)
    (message_type : String) (metadata : Option Metadata) (now : Nat) :
    Bool × StateManager :=
  match get_state sm session_id with
  | none => (false, sm)
  | some st => (true, alistSet sm session_id (addMessageState st message sender message_type metadata now))

/-- `add_pending_action`: appends to the end of the queue. -/
def add_pending_action (sm : StateManager) (session_id : String) (action : AgentAction)
    (now : Nat) : Bool × StateManager :=
  match get_state sm session_id with
  | none => (false, sm)
  | some st => (true, alistSet sm session_id (addPendingActionState st action now))

/-- `get_next_action`: `pending_actions.pop(0)`, or `None` (store
untouched) when the session is unknown or the queue is empty. -/
def get_next_action (sm : StateManager) (session_id : String) :
    Option AgentAction × StateManager :=
  match get_state sm session_id with
  | none => (none, sm)
  | some st =>
      match st.pending_actions with
      | [] => (none, sm)
      | action :: rest =>
          (some action, alistSet sm session_id { st with pending_actions := rest })

/-- `record_decision`. -/
def record_decision (sm : StateManager) (session_id : String) (decision : AgentDecision)
    (now : Nat) : Bool × StateManager :=
  match get_state sm session_id with
  | none => (false, sm)
  | some st => (true, alistSet sm session_id (recordDecisionState st decision now))

/-- `record_tool_result`. -/
def record_tool_result (sm : StateManager) (session_id : String) (tool_name : Option String)
    (result : Option String) (success : Bool) (now : Nat) : Bool × StateManager :=
  match get_state sm session_id with
  | none => (false, sm)
  | some st => (true, alistSet sm session_id (recordToolResultState st tool_name result success now))

/-- `record_error`. -/
def record_error (sm : StateManager) (session_id : String) (error_message : String)
    (error_context : Option (List (String × String))) (now : Nat) : Bool × StateManager :=
  match get_state sm session_id with
  | none => (false, sm)
  | some st => (true, alistSet sm session_id (recordErrorState st error_message error_context now))

/-- `clear_errors`. -/
def clear_errors (sm : StateManager) (session_id : String) (now : Nat) :
    Bool × StateManager :=
  match get_state sm session_id with
  | none => (false, sm)
  | some st => (true, alistSet sm session_id (clearErrorsState st now))

/-- `cleanup_session`. -/
def cleanup_session (sm : StateManager) (session_id : String) : Bool × StateManager :=
  if alistContains sm session_id then (true, alistDel sm session_id) else (false, sm)

/-- `get_active_sessions`. -/
def get_active_sessions (sm : StateManager) : List String := sm.map (·.1)

/-- The read-only projection returned by `get_session_summary`. -/
structure SessionSummary where
  session_id : String
  user_phone : String
  current_state : String
  message_count : Nat
  current_task : Option String
  task_status : String
  pending_actions : Nat
  error_count : Nat
  created_at : Nat
  updated_at : Nat
deriving DecidableEq, Repr

/-- `get_session_summary`. -/
def get_session_summary (sm : StateManager) (session_id : String) :
    Option SessionSummary :=
  match get_state sm session_id with
  | none => none
  | some st => some
      { session_id := session_id
        user_phone := st.user_phone
        current_state := st.current_state.value
        message_count := st.conversation_history.length
        current_task := st.current_task
        task_status := st.task_status.value
        pending_actions := st.pending_actions.length
        error_count := st.error_count
        created_at := st.created_at
        updated_at := st.updated_at }

end StateManager

/-! ### Tool registry (`agent/tool_registry.py`) -/

/-- Outcome of running a tool executor: a returned value, or a raised
exception with its message (`str(e)`). -/
inductive ExecOutcome where
  | ok (result : String)
  | throws (msg : String)

/-- Per-parameter schema entry; validation only reads the `required`
flag (`param_def.get("required", False)`). -/
structure ParamSpec where
  required : Bool
deriving DecidableEq, Repr

/-- The `ToolDefinition` dataclass, restricted to the fields
`execute_tool` reads (`category`, `description` and `examples` play no
role in dispatch). -/
structure ToolDefinition where
  name : String
  parameters : List (String × ParamSpec)
  required_permissions : List String
  execution_function : Params → ExecOutcome

/-- Modelled from the spec: `ToolExecutionResult` with
`{success, result, error, execution_time}` as constructed throughout
`execute_tool`; `models/agent.py` does not define this class even though
`tool_registry.py` imports it (`test_imports.py` flags it).  Elapsed wall
time is `Nat`-valued. -/
structure ToolExecutionResult where
  success : Bool
  result : Option String
  error : Option String
  execution_time : Nat
deriving DecidableEq, Repr

/-- The `tools` dict of `ToolRegistry`. -/
abbrev ToolRegistry := List (String × ToolDefinition)

/-- Python `repr` of a string (single-quoted; permission names contain no
quotes or escapes). -/
def pyStrRepr (s : String) : String := "\x27" ++ s ++ "\x27"

/-- Python `repr`/f-string rendering of a list of strings,
e.g. `[\x27airtable:read\x27]`. -/
def pyListRepr (xs : List String) : String :=
  "[" ++ String.intercalate ", " (xs.map pyStrRepr) ++ "]"

/-- Python str() of an optional tool name (`None` for the `None` object),
as interpolated into the not-found error message. -/
def pyOptName : Option String → String
  | some s => s
  | none => "None"

namespace ToolRegistry

/-- `register_tool`: dict assignment keyed by the tool name. -/
def register_tool (tools : ToolRegistry) (tool : ToolDefinition) : ToolRegistry :=
  alistSet tools tool.name tool

/-- `self.tools.get(tool_name)`; a Python `None` key matches no registered
string key. -/
def get_tool (tools : ToolRegistry) : Option String → Option ToolDefinition
  | some name => alistGet tools name
  | none => none

/-- `get_available_tools`: tools whose required-permission set is empty or
fully contained in the caller permissions. -/
def get_available_tools (tools : ToolRegistry) (permissions : List String) :
    List ToolDefinition :=
  (tools.map (·.2)).filter
    (fun tool => tool.required_permissions.isEmpty ||
      tool.required_permissions.all (fun p => permissions.contains p))

/-- `_validate_parameters`: first required parameter absent from the call
parameters, in schema order. -/
def validate_parameters (tool : ToolDefinition) (parameters : Params) : Option String :=
  match tool.parameters.find? (fun ps => ps.2.required && !(alistContains parameters ps.1)) with
  | some ps => some ("Missing required parameter: " ++ ps.1)
  | none => none

/-- `execute_tool`: not-found, permission and parameter checks in that
order, each returning a failed result without touching the executor; a
successful run returns the value with the elapsed time, and a raised
exception is caught and returned as a failed result.  This boundary never
raises. -/
def execute_tool (tools : ToolRegistry) (tool_name : Option String) (parameters : Params)
    (user_permissions : List String) (elapsed : Nat) : ToolExecutionResult :=
  match get_tool tools tool_name with
  | none =>
      { success := false, result := none,
        error := some ("Tool " ++ pyStrRepr (pyOptName tool_name) ++ " not found"),
        execution_time := 0 }
  | some tool =>
      if !tool.required_permissions.isEmpty &&
          !(tool.required_permissions.all (fun p => user_permissions.contains p)) then
        let missing_perms := tool.required_permissions.filter
          (fun p => !(user_permissions.contains p))
        { success := false, result := none,
          error := some ("Missing permissions: " ++ pyListRepr missing_perms),
          execution_time := 0 }
      else
        match validate_parameters tool parameters with
        | some validation_error =>
            { success := false, result := none, error := some validation_error,
              execution_time := 0 }
        | none =>
            match tool.execution_function parameters with
            | .ok r =>
                { success := true, result := some r, error := none,
                  execution_time := elapsed }
            | .throws msg =>
                { success := false, result := none, error := some msg,
                  execution_time := 0 }

end ToolRegistry

/-! ### Workflow graph (`agent/graph_builder.py`)

Each node body acts on the session state; LLM call outcomes arrive as
parameters (`Except` carries the message of a raised exception). -/

/-- A function-call reply from the LLM
(`response.additional_kwargs["function_call"]`). -/
structure FunctionCall where
  name : String
  arguments : String
deriving DecidableEq, Repr

/-- The decision-step LLM reply: plain content (empty string models a
falsy/absent content) and an optional function call. -/
structure LLMResponse where
  content : String
  function_call : Option FunctionCall
deriving DecidableEq, Repr

/-- `state["metadata"].get("permissions", [])` as read by the decision and
execution nodes (the authenticate node stores the permission list under
this key). -/
def metaPermissions (m : Metadata) : List String :=
  match alistGet m "permissions" with
  | some (.perms ps) => ps
  | _ => []

/-- The message of the `NameError` raised when the function-call branch of
`_parse_decision_response` evaluates `json.loads`: `graph_builder.py` never
imports `json` at module level (the `import json` statements live inside
the function bodies of `_parse_analysis_response` and
`_parse_recovery_response`, binding the name only locally there), so the
name lookup fails before the arguments are ever parsed.  `str(e)` for that
exception is exactly this text. -/
def jsonNameErrorMsg : String := "name \x27json\x27 is not defined"

/-- `_parse_decision_response`: the function-call branch evaluates
`json.loads(function_call[\x27arguments\x27])`, and since `json` is unbound
in this module the branch always raises `NameError` — embedded as the
`.error` outcome carrying `str(e)`, raised before any action is built.  A
reply without a function call succeeds: (truthy) content becomes one
`send_message` action, an empty reply yields no actions; the successful
result is always a single `AgentDecision` with `confidence=0.8`.  The
`state` argument is accepted and ignored, as in the source. -/
def parse_decision_response (response : LLMResponse) (_state : AgentGraphState) :
    Except String AgentDecision :=
  match response.function_call with
  | some _ => .error jsonNameErrorMsg
  | none =>
      let actions : List AgentAction :=
        if response.content = "" then []
        else
          [{ action_type := "send_message",
             tool_name := none,
             parameters := [("message", response.content)],
             reasoning := "Direct response to user" }]
      .ok { decision_type := "action_sequence"
            confidence := (8 : Rat) / 10
            reasoning := if response.content = "" then "Automated decision"
                         else response.content
            actions := actions
            metadata := [] }

/-- `_make_decision_node`: on an LLM reply, parse the decision, record it
(`record_decision` on the aliased session record, then the direct
`state["last_decision"]` assignment) and enqueue every action; a raised
exception — from the LLM call or from the parse (the `NameError` of the
function-call branch) — is caught by the `except` clause before anything
is recorded or enqueued and flips the state to `ERROR` with
`last_error = str(e)`. -/
def make_decision_node (llm : Except String LLMResponse)
    (st : AgentGraphState) (now : Nat) : AgentGraphState :=
  match llm with
  | .error e => { st with current_state := .error, last_error := some e }
  | .ok response =>
      match parse_decision_response response st with
      | .error e => { st with current_state := .error, last_error := some e }
      | .ok decision =>
          let st1 := recordDecisionState st decision now
          let st2 := { st1 with last_decision := some decision }
          decision.actions.foldl (fun acc action => addPendingActionState acc action now) st2

/-- `_execute_action_node`: dequeue the next pending action (no-op when
the queue is empty), mark the state `EXECUTING_TASK`, then dispatch on the
action type; a failed tool run flips the state to `ERROR` with
`last_error` set to the error of the tool.  `elapsed` is the measured executor
wall time. -/
def execute_action_node (tools : ToolRegistry) (st : AgentGraphState)
    (elapsed now : Nat) : AgentGraphState :=
  match st.pending_actions with
  | [] => st
  | action :: rest =>
      let st1 := { st with pending_actions := rest }
      let st2 := { st1 with current_state := .executingTask }
      if action.action_type = "tool_call" then
        let result := ToolRegistry.execute_tool tools action.tool_name action.parameters
          (metaPermissions st2.metadata) elapsed
        let st3 := recordToolResultState st2 action.tool_name result.result result.success now
        if result.success then st3
        else { st3 with current_state := .error, last_error := result.error }
      else if action.action_type = "send_message" then
        { st2 with
          metadata := alistSet st2.metadata "response_message"
            (match alistGet action.parameters "message" with
             | some s => .str s
             | none => .null) }
      else if action.action_type = "wait_for_input" then
        { st2 with current_state := .waitingForInput }
      else st2

/-- The fixed giveup apology stored once the retry budget is exhausted. -/
def technicalDifficultiesMsg : String :=
  "I\x27m experiencing technical difficulties. Please try again later or contact support."

/-- The apology stored when error handling itself raises. -/
def errorHandlingFailedMsg : String :=
  "I\x27m experiencing technical difficulties. Please try again later."

/-- The recovery branch of `_handle_error_node` (taken only when
`error_count < 3`): consume the LLM recovery reply — retry resets the
lifecycle to `PROCESSING` and stashes the strategy, otherwise the
user-facing error message is stored; a raised exception is caught and a
generic apology stored.  The `llmRecovery` parameter bundles
`llm.ainvoke` with `_parse_recovery_response` (which is total: malformed
JSON degrades to a non-retry default dict). -/
def applyRecovery (llmRecovery : Except String RecoveryDict) (st : AgentGraphState) :
    AgentGraphState :=
  match llmRecovery with
  | .ok recovery =>
      if recovery.should_retry.getD false then
        { st with
          current_state := .processing,
          metadata := alistSet st.metadata "recovery_strategy" (.recovery recovery) }
      else
        { st with
          metadata := alistSet st.metadata "response_message"
            (.str (recovery.error_message.getD
              "I encountered an error and cannot complete this request.")) }
  | .error _ =>
      { st with
        metadata := alistSet st.metadata "response_message" (.str errorHandlingFailedMsg) }

/-- `_handle_error_node`: below the retry budget the LLM recovery branch
runs; at `error_count >= 3` the node skips the LLM entirely and stores the
fixed technical-difficulties apology. -/
def handle_error_node (llmRecovery : Except String RecoveryDict) (st : AgentGraphState) :
    AgentGraphState :=
  if st.error_count < 3 then applyRecovery llmRecovery st
  else
    { st with
      metadata := alistSet st.metadata "response_message" (.str technicalDifficultiesMsg) }

/-- `_should_continue_after_execution` (`graph_builder.py`, lines
255-264): error first, then a non-empty queue asks for another execution
round, then `WAITING_FOR_INPUT` ends the run, else respond. -/
def should_continue_after_execution (st : AgentGraphState) : String :=
  if st.current_state = .error then "error"
  else if !st.pending_actions.isEmpty then "execute"
  else if st.current_state = .waitingForInput then "end"
  else "respond"

/-- The graph nodes registered in `_build_graph`, plus the `END`
sentinel. -/
inductive GraphNode where
  | authenticate
  | analyze_input
  | make_decision
  | execute_action
  | handle_error
  | generate_response
  | END
deriving DecidableEq, Repr

/-- The conditional-edge path map attached to `execute_action` in
`_build_graph` (lines 81-90): `{"decide": make_decision, "respond":
generate_response, "error": handle_error, "end": END}`.  A label outside
the map has no edge (LangGraph raises on it at runtime), hence the
`Option`. -/
def execute_action_edges : String → Option GraphNode
  | "decide" => some .make_decision
  | "respond" => some .generate_response
  | "error" => some .handle_error
  | "end" => some .END
  | _ => none

/-- The next node reached from `execute_action` in the compiled graph:
the label of the router looked up in the path map. -/
def nextAfterExecution (st : AgentGraphState) : Option GraphNode :=
  execute_action_edges (should_continue_after_execution st)

/-- The routing rule exactly as the spec states it (§4.3, "After
ExecuteAction: Error→HandleError; pending_actions still
non-empty→ExecuteAction (loop until drained);
lifecycle==WaitingForInput→terminate (suspend); else→GenerateResponse"). -/
def specRouteAfterExecution (st : AgentGraphState) : GraphNode :=
  if st.current_state = .error then .handle_error
  else if !st.pending_actions.isEmpty then .execute_action
  else if st.current_state = .waitingForInput then .END
  else .generate_response

/-! ### Workflow manager (`agent/workflow_manager.py`)

The synchronous state of `WorkflowManager`: the per-session bookkeeping
dict `active_workflows`, the owned `StateManager`, and the counters the
claims touch.  Spawning the asynchronous graph-execution task
(`asyncio.create_task`) is outside this state model. -/

/-- One value of the `active_workflows` dict. -/
structure WorkflowEntry where
  user_phone : String
  start_time : Nat
  status : String
  message_count : Nat
  last_activity : Nat
deriving DecidableEq, Repr

/-- The mutable state of `WorkflowManager`. -/
structure WorkflowManager where
  max_concurrent_sessions : Nat
  active_workflows : List (String × WorkflowEntry)
  state_manager : StateManager
  total_sessions : Nat
deriving DecidableEq, Repr

/-- The failure raised by `start_workflow` at capacity
(`raise Exception("Maximum concurrent sessions reached")`; the spec names
it `CapacityExceeded`). -/
inductive StartError where
  | capacityExceeded (msg : String)
deriving DecidableEq, Repr

namespace WorkflowManager

/-- `start_workflow`: default the session id (Python falsiness covers both
`None` and the empty string; `freshId` supplies the generated UUID), fail
at capacity before touching any state, otherwise create and register the
session state, register the workflow entry, and bump the session counter.
The spawned graph task is external. -/
def start_workflow (wm : WorkflowManager) (user_phone : String)
    (initial_message : Option String) (context : Option Metadata)
    (session_id : Option String) (freshId : String) (now : Nat) :
    Except StartError (String × WorkflowManager) :=
  let sid :=
    match session_id with
    | some s => if s = "" then freshId else s
    | none => freshId
  if wm.max_concurrent_sessions ≤ wm.active_workflows.length then
    .error (.capacityExceeded "Maximum concurrent sessions reached")
  else
    let (_, sm1) := StateManager.create_initial_state wm.state_manager sid user_phone
      initial_message context now
    let entry : WorkflowEntry :=
      { user_phone := user_phone, start_time := now, status := "running",
        message_count := 0, last_activity := now }
    .ok (sid,
      { wm with
        state_manager := sm1,
        active_workflows := alistSet wm.active_workflows sid entry,
        total_sessions := wm.total_sessions + 1 })

/-- `send_message`: `False` for an unknown workflow or missing session
state; otherwise bump the workflow bookkeeping, then force
`current_message`, `message_type` and `current_state = PROCESSING` into
the session state through `update_state` (no transition validation), and
return `True`.  A truthy `metadata` argument raises: the source indexes
`updates["metadata"]`, a key the `updates` dict never contains
(`KeyError`); the workflow bookkeeping has already been mutated at that
point.  Spawning `_resume_workflow` is external. -/
def send_message (wm : WorkflowManager) (session_id message : String)
    (message_type : String) (metadata : Option Metadata) (now : Nat) :
    Except String (Bool × WorkflowManager) :=
  match alistGet wm.active_workflows session_id with
  | none => .ok (false, wm)
  | some workflow =>
      let workflow1 := { workflow with
        last_activity := now
        message_count := workflow.message_count + 1 }
      let wm1 := { wm with
        active_workflows := alistSet wm.active_workflows session_id workflow1 }
      match StateManager.get_state wm1.state_manager session_id with
      | none => .ok (false, wm1)
      | some _ =>
          let truthyMeta :=
            match metadata with
            | some m => !m.isEmpty
            | none => false
          if truthyMeta then .error "KeyError: \x27metadata\x27"
          else
            let (_, sm1) := StateManager.update_state wm1.state_manager session_id
              [.current_message (some message),
               .message_type (some message_type),
               .current_state .processing] now
            .ok (true, { wm1 with state_manager := sm1 })

end WorkflowManager

/-! ### Concrete instances used by closed theorems -/

/-- A baseline session record for concrete runs (a freshly created session
whose authentication step has set the lifecycle to `PROCESSING`). -/
def baseState : AgentGraphState :=
  { current_state := .processing
    session_id := "session-1"
    user_phone := "+15551234567"
    conversation_history := []
    current_message := some "hello"
    message_type := some "text"
    current_task := none
    task_status := .pending
    task_context := []
    last_decision := none
    pending_actions := []
    available_tools := []
    tool_results := []
    error_count := 0
    last_error := none
    created_at := 0
    updated_at := 0
    metadata := [] }

/-- A pending `send_message` action, queued behind an already-executed
action: the shape of the state right after one `ExecuteAction` round that
left more work in the queue. -/
def loopAction : AgentAction :=
  { action_type := "send_message", parameters := [("message", "hi")],
    reasoning := "Direct response to user" }

/-- Post-`ExecuteAction` state with a non-error lifecycle and a still
non-empty queue (the looping case of the routing rule). -/
def loopState : AgentGraphState :=
  { baseState with current_state := .executingTask, pending_actions := [loopAction] }

/-- A registered tool whose executor raises `Exception("boom")`. -/
def boomTool : ToolDefinition :=
  { name := "boom_tool", parameters := [], required_permissions := [],
    execution_function := fun _ => .throws "boom" }

/-- A registry holding just `boomTool`. -/
def boomRegistry : ToolRegistry := ToolRegistry.register_tool [] boomTool

/-- A session state about to execute a `tool_call` action against
`boomTool`, with no errors recorded so far. -/
def boomCallState : AgentGraphState :=
  { baseState with
    pending_actions := [{ action_type := "tool_call", tool_name := some "boom_tool",
                          parameters := [], reasoning := "r" }] }

/-- An LLM decision reply with neither a function call nor content (e.g.
an empty completion). -/
def emptyDecisionResponse : LLMResponse := { content := "", function_call := none }

/-- An LLM decision reply carrying a function call. -/
def fcDecisionResponse : LLMResponse :=
  { content := "",
    function_call := some { name := "list_airtable_records", arguments := "\x7b\x7d" } }

/-- Follows the words of the corrected claim C8 (not the source), for the
replies the step can actually turn into a decision — those without a
function call: non-empty plain text yields exactly one `send_message`
action carrying that text; an empty reply yields a decision with zero
actions.  (A function-call reply never reaches a decision: it raises.) -/
def decisionActionsSpec (resp : LLMResponse) : List AgentAction :=
  if resp.content = "" then []
  else
    [{ action_type := "send_message", tool_name := none,
       parameters := [("message", resp.content)],
       reasoning := "Direct response to user" }]

/-- A one-session store holding `baseState` under `"session-1"`. -/
def demoStore : StateManager := [("session-1", baseState)]

/-- A session stuck in the `ERROR` lifecycle state. -/
def errorState : AgentGraphState := { baseState with current_state := .error }

/-- A one-session store holding `errorState`. -/
def errorStore : StateManager := [("session-1", errorState)]

/-- A session whose retry budget is exhausted. -/
def exhaustedState : AgentGraphState :=
  { baseState with error_count := 3, last_error := some "boom" }

/-- A workflow manager at full capacity (one active workflow, limit 1). -/
def fullManager : WorkflowManager :=
  { max_concurrent_sessions := 1
    active_workflows :=
      [("session-1", { user_phone := "+15551234567", start_time := 0,
                       status := "running", message_count := 0, last_activity := 0 })]
    state_manager := demoStore
    total_sessions := 1 }

/-- A workflow manager whose single session sits in the `ERROR` lifecycle
state. -/
def errorManager : WorkflowManager :=
  { fullManager with max_concurrent_sessions := 10, state_manager := errorStore }

/-- A tool requiring two permissions. -/
def writeTool : ToolDefinition :=
  { name := "create_airtable_record",
    parameters := [("table_name", { required := true }), ("fields", { required := true })],
    required_permissions := ["airtable:read", "airtable:write"],
    execution_function := fun _ => .ok "created" }

/-- A registry holding just `writeTool`. -/
def writeRegistry : ToolRegistry := ToolRegistry.register_tool [] writeTool

/-! ### Helper lemmas -/

theorem alistGet_alistSet_self {κ α : Type} [BEq κ] [LawfulBEq κ]
    (l : List (κ × α)) (k : κ) (v : α) :
    alistGet (alistSet l k v) k = some v := by
  induction l with
  | nil => simp [alistSet, alistGet]
  | cons kv rest ih =>
      cases h : kv.1 == k with
      | true => simp [alistSet, h, alistGet]
      | false =>
          simp only [alistSet, h, Bool.false_eq_true, if_neg, ite_false]
          simpa [alistGet, List.find?, h] using ih

theorem alistSet_length_le {κ α : Type} [BEq κ] (l : List (κ × α)) (k : κ) (v : α) :
    (alistSet l k v).length ≤ l.length + 1 := by
  induction l with
  | nil => simp [alistSet]
  | cons kv rest ih =>
      cases h : kv.1 == k with
      | true => simp [alistSet, h]
      | false =>
          simp only [alistSet, h, Bool.false_eq_true, if_neg, ite_false, List.length_cons]
          omega

/-- Folding the enqueue helper over a list of actions appends them all,
provided `updated_at` already carries the clock value each step writes. -/
theorem foldl_addPendingActionState (axs : List AgentAction) (st : AgentGraphState)
    (now : Nat) (h : st.updated_at = now) :
    axs.foldl (fun acc action => addPendingActionState acc action now) st
      = { st with pending_actions := st.pending_actions ++ axs, updated_at := now } := by
  induction axs generalizing st with
  | nil =>
      subst h
      simp only [List.foldl_nil, List.append_nil]
  | cons a rest ih =>
      simp only [List.foldl_cons]
      rw [ih (addPendingActionState st a now) rfl]
      simp [addPendingActionState]

/-! ### Claim theorems -/

/-- C1: after the ExecuteAction step, the routing function
`_should_continue_after_execution` follows the rule of the spec, returning the
label "execute" when the queue is still non-empty — but the compiled
graph has a conditional-edge map for `execute_action` with no binding for
that label (its keys are decide/respond/error/end), so the loop edge the
spec requires does not exist: at the exhibited state the spec routes back
to ExecuteAction while the compiled graph has no edge at all (LangGraph
raises on the unknown label at runtime). -/
theorem execute_action_loop_edge_missing :
    should_continue_after_execution loopState = "execute"
    ∧ specRouteAfterExecution loopState = GraphNode.execute_action
    ∧ nextAfterExecution loopState = none
    ∧ execute_action_edges "decide" = some GraphNode.make_decision :=
  ⟨rfl, rfl, rfl, rfl⟩

/-- C2: when a tool invocation fails (the executor raises), the
ExecuteAction step does set the lifecycle to `ERROR` with `last_error`
holding the error of the tool, and the error route to HandleError is taken —
but `error_count` is left exactly as it was (0 here, not 1):
`StateManager.record_error` is never invoked by the node, contradicting
the claimed increment. -/
theorem tool_failure_leaves_error_count_unchanged :
    (execute_action_node boomRegistry boomCallState 0 1).current_state = AgentState.error
    ∧ (execute_action_node boomRegistry boomCallState 0 1).last_error = some "boom"
    ∧ boomCallState.error_count = 0
    ∧ (execute_action_node boomRegistry boomCallState 0 1).error_count = 0
    ∧ nextAfterExecution (execute_action_node boomRegistry boomCallState 0 1)
        = some GraphNode.handle_error :=
  ⟨rfl, rfl, rfl, rfl, rfl⟩

/-- C3: for an active session, `transition_state` succeeds exactly when
the (old, new) pair is in the allowed-transition table; on success the
stored session carries the new lifecycle state, on failure the whole store
is returned untouched.  (The operation is a total function into a boolean
and a store: no outcome raises.) -/
theorem transition_state_follows_table (sm : StateManager) (sid : String)
    (st : AgentGraphState) (new_state : AgentState) (ctx : Option Metadata) (now : Nat)
    (h : StateManager.get_state sm sid = some st) :
    (StateManager.transition_state sm sid new_state ctx now).1
        = isValidTransition st.current_state new_state
    ∧ (isValidTransition st.current_state new_state = false →
        StateManager.transition_state sm sid new_state ctx now = (false, sm))
    ∧ (isValidTransition st.current_state new_state = true →
        StateManager.transition_state sm sid new_state ctx now
            = (true, alistSet sm sid (StateManager.transitionApply st new_state ctx now))
          ∧ StateManager.get_state
              (StateManager.transition_state sm sid new_state ctx now).2 sid
              = some (StateManager.transitionApply st new_state ctx now)
          ∧ (StateManager.transitionApply st new_state ctx now).current_state = new_state) := by
  have hcs : (StateManager.transitionApply st new_state ctx now).current_state = new_state := by
    cases ctx with
    | none => rfl
    | some c =>
        by_cases hc : c.isEmpty <;> simp [StateManager.transitionApply, hc]
  have h' : alistGet sm sid = some st := h
  cases hv : isValidTransition st.current_state new_state with
  | false =>
      refine ⟨?_, fun _ => ?_, fun htrue => Bool.noConfusion htrue⟩ <;>
        simp [StateManager.transition_state, StateManager.get_state, h', hv]
  | true =>
      refine ⟨?_, fun hfalse => Bool.noConfusion hfalse, fun _ => ⟨?_, ?_, hcs⟩⟩ <;>
        simp [StateManager.transition_state, StateManager.get_state, h', hv,
          alistGet_alistSet_self]

/-- Witness for C3 at a concrete store: `baseState` is in `PROCESSING`,
and the requested transition to `EXECUTING_TASK` is in the table. -/
theorem transition_state_follows_table_witness :
    StateManager.get_state demoStore "session-1" = some baseState
    ∧ ((StateManager.transition_state demoStore "session-1" .executingTask none 5).1
          = isValidTransition baseState.current_state .executingTask
       ∧ (isValidTransition baseState.current_state .executingTask = false →
            StateManager.transition_state demoStore "session-1" .executingTask none 5
              = (false, demoStore))
       ∧ (isValidTransition baseState.current_state .executingTask = true →
            StateManager.transition_state demoStore "session-1" .executingTask none 5
                = (true, alistSet demoStore "session-1"
                    (StateManager.transitionApply baseState .executingTask none 5))
              ∧ StateManager.get_state
                  (StateManager.transition_state demoStore "session-1" .executingTask none 5).2
                  "session-1"
                  = some (StateManager.transitionApply baseState .executingTask none 5)
              ∧ (StateManager.transitionApply baseState .executingTask none 5).current_state
                  = .executingTask)) :=
  ⟨rfl, transition_state_follows_table demoStore "session-1" baseState .executingTask none 5 rfl⟩

/-- C4: at or above `max_concurrent_sessions` active sessions,
`start_workflow` fails with the capacity error before creating or
registering anything (the returned manager is untouched because no manager
is returned at all — the failure carries no state); below capacity a
successful start leaves the active-session count within the limit, so the
count never exceeds the maximum. -/
theorem start_workflow_capacity_guard (wm : WorkflowManager) (user_phone : String)
    (msg : Option String) (ctx : Option Metadata) (sid : Option String)
    (freshId : String) (now : Nat) :
    (wm.max_concurrent_sessions ≤ wm.active_workflows.length →
      WorkflowManager.start_workflow wm user_phone msg ctx sid freshId now
        = .error (.capacityExceeded "Maximum concurrent sessions reached"))
    ∧ (wm.active_workflows.length ≤ wm.max_concurrent_sessions →
        ∀ s wm1, WorkflowManager.start_workflow wm user_phone msg ctx sid freshId now
            = .ok (s, wm1) →
          wm1.active_workflows.length ≤ wm.max_concurrent_sessions) := by
  constructor
  · intro hcap
    simp [WorkflowManager.start_workflow, hcap]
  · intro _ s wm1 hok
    by_cases hcap : wm.max_concurrent_sessions ≤ wm.active_workflows.length
    · simp [WorkflowManager.start_workflow, hcap] at hok
    · have hlt : wm.active_workflows.length < wm.max_concurrent_sessions := by omega
      simp only [WorkflowManager.start_workflow, if_neg hcap, Except.ok.injEq,
        Prod.mk.injEq] at hok
      obtain ⟨-, rfl⟩ := hok
      have := alistSet_length_le wm.active_workflows
        (match sid with
         | some s => if s = "" then freshId else s
         | none => freshId)
        { user_phone := user_phone, start_time := now, status := "running",
          message_count := 0, last_activity := now }
      simp only
      omega

/-- Witness for C4: `fullManager` is at capacity (limit 1, one active
workflow); starting another session fails with the capacity error. -/
theorem start_workflow_capacity_guard_witness :
    fullManager.max_concurrent_sessions ≤ fullManager.active_workflows.length
    ∧ WorkflowManager.start_workflow fullManager "+15550000000" (some "hi") none none
        "fresh-id" 9
        = .error (.capacityExceeded "Maximum concurrent sessions reached") :=
  ⟨by decide,
   (start_workflow_capacity_guard fullManager "+15550000000" (some "hi") none none
      "fresh-id" 9).1 (by decide)⟩

/-- C5: the pending-action queue is strictly FIFO — from an empty queue,
enqueueing A, B, C and dequeuing three times yields A, then B, then C,
leaving the queue empty again; dequeuing from the empty queue yields
`none` and returns the store untouched. -/
theorem pending_actions_fifo (sm : StateManager) (sid : String) (st : AgentGraphState)
    (A B C : AgentAction) (n1 n2 n3 : Nat)
    (h : StateManager.get_state sm sid = some st)
    (hq : st.pending_actions = []) :
    StateManager.get_next_action sm sid = (none, sm)
    ∧ (let sm3 := (StateManager.add_pending_action
          (StateManager.add_pending_action
            (StateManager.add_pending_action sm sid A n1).2 sid B n2).2 sid C n3).2
       let d1 := StateManager.get_next_action sm3 sid
       let d2 := StateManager.get_next_action d1.2 sid
       let d3 := StateManager.get_next_action d2.2 sid
       d1.1 = some A ∧ d2.1 = some B ∧ d3.1 = some C
         ∧ (StateManager.get_state d3.2 sid).map AgentGraphState.pending_actions
             = some []) := by
  have h' : alistGet sm sid = some st := h
  constructor
  · simp [StateManager.get_next_action, StateManager.get_state, h', hq]
  · simp only [StateManager.add_pending_action, StateManager.get_next_action,
      StateManager.get_state, StateManager.add_pending_action, addPendingActionState,
      h', hq, alistGet_alistSet_self, List.nil_append, List.cons_append,
      List.append_nil, List.singleton_append, Option.map_some]
    exact ⟨trivial, trivial, trivial, rfl⟩

/-- Witness for C5 on a concrete one-session store with three concrete
actions. -/
theorem pending_actions_fifo_witness :
    StateManager.get_state demoStore "session-1" = some baseState
    ∧ baseState.pending_actions = []
    ∧ (StateManager.get_next_action demoStore "session-1" = (none, demoStore)
       ∧ (let sm3 := (StateManager.add_pending_action
             (StateManager.add_pending_action
               (StateManager.add_pending_action demoStore "session-1" loopAction 1).2
               "session-1" { action_type := "wait_for_input" } 2).2
             "session-1" { action_type := "tool_call", tool_name := some "t" } 3).2
          let d1 := StateManager.get_next_action sm3 "session-1"
          let d2 := StateManager.get_next_action d1.2 "session-1"
          let d3 := StateManager.get_next_action d2.2 "session-1"
          d1.1 = some loopAction
            ∧ d2.1 = some { action_type := "wait_for_input" }
            ∧ d3.1 = some { action_type := "tool_call", tool_name := some "t" }
            ∧ (StateManager.get_state d3.2 "session-1").map AgentGraphState.pending_actions
                = some [])) :=
  ⟨rfl, rfl,
   pending_actions_fifo demoStore "session-1" baseState loopAction
     { action_type := "wait_for_input" } { action_type := "tool_call", tool_name := some "t" }
     1 2 3 rfl rfl⟩

/-- C6: when the caller lacks at least one required permission of a
registered tool, `execute_tool` returns a failed result whose error message
lists exactly the missing required permissions (in schema order), and the
underlying executor is not invoked: the failed result is the same for
every possible `execution_function` of the tool, since `tool` (executor
included) is universally quantified and absent from the right-hand
side. -/
theorem execute_tool_permission_denied (tools : ToolRegistry) (tool_name : Option String)
    (tool : ToolDefinition) (params : Params) (perms : List String) (elapsed : Nat)
    (hfind : ToolRegistry.get_tool tools tool_name = some tool)
    (hmiss : tool.required_permissions.any (fun p => !(perms.contains p)) = true) :
    ToolRegistry.execute_tool tools tool_name params perms elapsed
      = { success := false, result := none,
          error := some ("Missing permissions: "
            ++ pyListRepr (tool.required_permissions.filter (fun p => !(perms.contains p)))),
          execution_time := 0 }
    ∧ ∀ p, p ∈ tool.required_permissions.filter (fun p => !(perms.contains p))
        ↔ (p ∈ tool.required_permissions ∧ p ∉ perms) := by
  obtain ⟨q, hqmem, hq⟩ := List.any_eq_true.mp hmiss
  have hne : tool.required_permissions.isEmpty = false := by
    cases hreq : tool.required_permissions with
    | nil => rw [hreq] at hqmem; cases hqmem
    | cons a l => rfl
  have hall : tool.required_permissions.all (fun p => perms.contains p) = false := by
    cases hAll : tool.required_permissions.all (fun p => perms.contains p) with
    | false => rfl
    | true =>
        have hcq := List.all_eq_true.mp hAll q hqmem
        rw [hcq] at hq
        cases hq
  constructor
  · have hguard : (!tool.required_permissions.isEmpty
        && !(tool.required_permissions.all fun p => perms.contains p)) = true := by
      rw [hne, hall]; rfl
    simp only [ToolRegistry.execute_tool, hfind, hguard]
    rfl
  · intro p
    simp [List.mem_filter]

/-- Witness for C6: `writeTool` requires read and write permissions, the
caller holds only read; the result names exactly the missing write
permission and is independent of the executor. -/
theorem execute_tool_permission_denied_witness :
    ToolRegistry.get_tool writeRegistry (some "create_airtable_record") = some writeTool
    ∧ writeTool.required_permissions.any
        (fun p => !(List.contains ["airtable:read"] p)) = true
    ∧ (ToolRegistry.execute_tool writeRegistry (some "create_airtable_record")
          [("table_name", "Contacts")] ["airtable:read"] 4
        = { success := false, result := none,
            error := some ("Missing permissions: "
              ++ pyListRepr (writeTool.required_permissions.filter
                    (fun p => !(List.contains ["airtable:read"] p)))),
            execution_time := 0 }
       ∧ ∀ p, p ∈ writeTool.required_permissions.filter
              (fun p => !(List.contains ["airtable:read"] p))
            ↔ (p ∈ writeTool.required_permissions ∧ p ∉ ["airtable:read"])) :=
  ⟨rfl, rfl,
   execute_tool_permission_denied writeRegistry (some "create_airtable_record") writeTool
     [("table_name", "Contacts")] ["airtable:read"] 4 rfl rfl⟩

/-- C7: at `error_count >= 3` the HandleError step stores the fixed
technical-difficulties apology under `metadata["response_message"]` and
its result does not depend on the LLM at all (the same state comes back
for every possible recovery outcome — no recovery call is made); only
below the budget does the step run the LLM-consuming recovery branch. -/
theorem handle_error_circuit_breaker (st : AgentGraphState)
    (llm llm2 : Except String RecoveryDict) (h : 3 ≤ st.error_count) :
    handle_error_node llm st
      = { st with
          metadata := alistSet st.metadata "response_message"
            (.str technicalDifficultiesMsg) }
    ∧ handle_error_node llm st = handle_error_node llm2 st
    ∧ ∀ st2, st2.error_count < 3 → handle_error_node llm st2 = applyRecovery llm st2 := by
  have hn : ¬ st.error_count < 3 := by omega
  refine ⟨by simp [handle_error_node, hn], by simp [handle_error_node, hn], ?_⟩
  intro st2 h2
  simp [handle_error_node, h2]

/-- Witness for C7: a session with its retry budget exhausted
(`error_count = 3`) gets the fixed apology even when the LLM collaborator
is down. -/
theorem handle_error_circuit_breaker_witness :
    3 ≤ exhaustedState.error_count
    ∧ (handle_error_node (.error "llm down") exhaustedState
        = { exhaustedState with
            metadata := alistSet exhaustedState.metadata
              "response_message" (.str technicalDifficultiesMsg) }
       ∧ handle_error_node (.error "llm down") exhaustedState
           = handle_error_node (.ok ⟨some true, none, none⟩) exhaustedState
       ∧ ∀ st2, st2.error_count < 3 →
           handle_error_node (.error "llm down") st2
             = applyRecovery (.error "llm down") st2) :=
  ⟨by decide,
   handle_error_circuit_breaker exhaustedState (.error "llm down")
     (.ok ⟨some true, none, none⟩) (by decide)⟩

/-- C8 counterexample: an LLM reply with neither a function call nor
content makes `_parse_decision_response` return a decision with zero
actions, which MakeDecision records without raising — the state is not in
`ERROR` afterwards and nothing was enqueued, refuting "at least one action
unless an exception occurs". -/
theorem make_decision_zero_actions_counterexample :
    (parse_decision_response emptyDecisionResponse baseState).map AgentDecision.actions
      = Except.ok []
    ∧ (make_decision_node (.ok emptyDecisionResponse) baseState 7).last_decision.map
        AgentDecision.actions = some []
    ∧ (make_decision_node (.ok emptyDecisionResponse) baseState 7).pending_actions = []
    ∧ (make_decision_node (.ok emptyDecisionResponse) baseState 7).current_state
        ≠ AgentState.error :=
  ⟨rfl, rfl, rfl, by decide⟩

/-- C8 (amended): a function-call reply never becomes a decision — the
branch raises `NameError` (`json` is referenced but never imported at
module level), which MakeDecision catches, flipping the lifecycle to
`ERROR` with `last_error` set to the message of the `NameError` and
recording or enqueueing nothing.  For every reply without a function call
the step produces exactly one decision, records it as `last_decision`,
and appends all its actions to `pending_actions`: one `send_message` for
non-empty plain text, none for an empty reply. -/
theorem make_decision_response_mapping (resp : LLMResponse) (st : AgentGraphState)
    (now : Nat) :
    (resp.function_call.isSome = true →
       parse_decision_response resp st = .error jsonNameErrorMsg
       ∧ make_decision_node (.ok resp) st now
           = { st with current_state := .error, last_error := some jsonNameErrorMsg })
    ∧ (resp.function_call = none →
       ∃ d, parse_decision_response resp st = .ok d
         ∧ d.actions = decisionActionsSpec resp
         ∧ make_decision_node (.ok resp) st now
             = { st with
                 last_decision := some d
                 pending_actions := st.pending_actions ++ d.actions
                 updated_at := now }) := by
  constructor
  · intro hfc
    cases hres : resp.function_call with
    | none => rw [hres] at hfc; simp at hfc
    | some fc =>
        exact ⟨by simp [parse_decision_response, hres],
               by simp [make_decision_node, parse_decision_response, hres]⟩
  · intro hfc
    simp only [parse_decision_response, hfc]
    refine ⟨_, rfl, rfl, ?_⟩
    simp only [make_decision_node, parse_decision_response, hfc, recordDecisionState]
    rw [foldl_addPendingActionState _ _ now rfl]

/-- Witness for C8 (amended), exercising both hypotheses concretely: a
function-call reply ends in `ERROR` carrying the `NameError` message, and
the empty reply produces the recorded zero-action decision. -/
theorem make_decision_response_mapping_witness :
    fcDecisionResponse.function_call.isSome = true
    ∧ (parse_decision_response fcDecisionResponse baseState = .error jsonNameErrorMsg
       ∧ make_decision_node (.ok fcDecisionResponse) baseState 7
           = { baseState with current_state := .error, last_error := some jsonNameErrorMsg })
    ∧ emptyDecisionResponse.function_call = none
    ∧ (∃ d, parse_decision_response emptyDecisionResponse baseState = .ok d
         ∧ d.actions = decisionActionsSpec emptyDecisionResponse
         ∧ make_decision_node (.ok emptyDecisionResponse) baseState 7
             = { baseState with
                 last_decision := some d
                 pending_actions := baseState.pending_actions ++ d.actions
                 updated_at := 7 }) :=
  ⟨rfl,
   (make_decision_response_mapping fcDecisionResponse baseState 7).1 rfl,
   rfl,
   (make_decision_response_mapping emptyDecisionResponse baseState 7).2 rfl⟩

/-- C9: `update_state` applies a `current_state` overwrite for every
target value and every prior lifecycle state — the result is the same
whether or not the pair is in the §4.3 table, because `update_state`
never consults `_is_valid_transition`; and `send_message` (with no extra
metadata) pushes `current_state = PROCESSING` into the session through
exactly this unguarded path. -/
theorem update_state_bypasses_transition_guard (sm : StateManager) (sid : String)
    (st : AgentGraphState) (v : AgentState) (now : Nat)
    (h : StateManager.get_state sm sid = some st) :
    StateManager.update_state sm sid [.current_state v] now
      = (some { st with current_state := v, updated_at := now },
         alistSet sm sid { st with current_state := v, updated_at := now })
    ∧ (∀ wm : WorkflowManager, ∀ w : WorkflowEntry, ∀ message mtype : String,
        alistGet wm.active_workflows sid = some w →
        wm.state_manager = sm →
        WorkflowManager.send_message wm sid message mtype none now
          = .ok (true,
              { wm with
                active_workflows := alistSet wm.active_workflows sid
                  { w with
                    last_activity := now
                    message_count := w.message_count + 1 },
                state_manager := alistSet sm sid
                  { st with
                    current_message := some message
                    message_type := some mtype
                    current_state := .processing
                    updated_at := now } })) := by
  have h' : alistGet sm sid = some st := h
  constructor
  · simp [StateManager.update_state, StateManager.get_state, h', applyUpdate]
  · intro wm w message mtype hw hsm
    subst hsm
    simp [WorkflowManager.send_message, hw, StateManager.get_state, h',
      StateManager.update_state, applyUpdate]

/-- Witness for C9: the session sits in the `ERROR` lifecycle state and
`(Error, ExecutingTask)` is not in the table, yet the field-level update
installs it. -/
theorem update_state_bypasses_transition_guard_witness :
    StateManager.get_state errorStore "session-1" = some errorState
    ∧ isValidTransition errorState.current_state AgentState.executingTask = false
    ∧ StateManager.update_state errorStore "session-1" [.current_state .executingTask] 11
        = (some { errorState with current_state := .executingTask, updated_at := 11 },
           alistSet errorStore "session-1"
             { errorState with current_state := .executingTask, updated_at := 11 }) :=
  ⟨rfl, rfl,
   (update_state_bypasses_transition_guard errorStore "session-1" errorState
      .executingTask 11 rfl).1⟩

/-- C10: every state-store operation invoked with an unknown session id
returns its failure value (`none` or `false`) with the store returned
untouched — so every existing session is untouched too — and, being a
total function into such a pair, never raises. -/
theorem missing_session_operations_are_noops (sm : StateManager) (sid : String)
    (now : Nat) (ups : List StateUpdate) (ns : AgentState) (ctx : Option Metadata)
    (message sender mtype : String) (md : Option Metadata) (a : AgentAction)
    (d : AgentDecision) (tn res : Option String) (suc : Bool)
    (em : String) (ec : Option (List (String × String)))
    (h : StateManager.get_state sm sid = none) :
    StateManager.update_state sm sid ups now = (none, sm)
    ∧ StateManager.transition_state sm sid ns ctx now = (false, sm)
    ∧ StateManager.add_message_to_history sm sid message sender mtype md now = (false, sm)
    ∧ StateManager.add_pending_action sm sid a now = (false, sm)
    ∧ StateManager.get_next_action sm sid = (none, sm)
    ∧ StateManager.record_decision sm sid d now = (false, sm)
    ∧ StateManager.record_tool_result sm sid tn res suc now = (false, sm)
    ∧ StateManager.record_error sm sid em ec now = (false, sm)
    ∧ StateManager.clear_errors sm sid now = (false, sm)
    ∧ StateManager.get_session_summary sm sid = none := by
  have h' : alistGet sm sid = none := h
  refine ⟨?_, ?_, ?_, ?_, ?_, ?_, ?_, ?_, ?_, ?_⟩ <;>
    simp [StateManager.update_state, StateManager.transition_state,
      StateManager.add_message_to_history, StateManager.add_pending_action,
      StateManager.get_next_action, StateManager.record_decision,
      StateManager.record_tool_result, StateManager.record_error,
      StateManager.clear_errors, StateManager.get_session_summary,
      StateManager.get_state, h']

/-- Witness for C10 on the empty store and a ghost session id, with
concrete arguments for every operation. -/
theorem missing_session_operations_are_noops_witness :
    StateManager.get_state ([] : StateManager) "ghost" = none
    ∧ (StateManager.update_state [] "ghost" [.error_count 9] 3 = (none, [])
       ∧ StateManager.transition_state [] "ghost" .processing none 3 = (false, [])
       ∧ StateManager.add_message_to_history [] "ghost" "hi" "user" "text" none 3
           = (false, [])
       ∧ StateManager.add_pending_action [] "ghost" loopAction 3 = (false, [])
       ∧ StateManager.get_next_action [] "ghost" = (none, [])
       ∧ StateManager.record_decision [] "ghost"
           { decision_type := "action_sequence", confidence := 1, reasoning := "r",
             actions := [], metadata := [] } 3 = (false, [])
       ∧ StateManager.record_tool_result [] "ghost" (some "t") (some "ok") true 3
           = (false, [])
       ∧ StateManager.record_error [] "ghost" "boom" none 3 = (false, [])
       ∧ StateManager.clear_errors [] "ghost" 3 = (false, [])
       ∧ StateManager.get_session_summary [] "ghost" = none) :=
  ⟨rfl,
   missing_session_operations_are_noops [] "ghost" 3 [.error_count 9] .processing none
     "hi" "user" "text" none loopAction
     { decision_type := "action_sequence", confidence := 1, reasoning := "r",
       actions := [], metadata := [] }
     (some "t") (some "ok") true "boom" none rfl⟩

end AWA
